import Mathlib

/-!
Shallow embedding of the personal-finance chatbot backend
(src/utils.py, src/main.py, src/ai_service.py).

Conventions of the embedding:
* a Python string is a list of characters (`Str`);
* a Python number is a rational (`ℚ`); the float literals 0.5, 0.7, 0.9
  of the source are the exact rationals 5/10, 7/10, 9/10;
* a loosely-typed Python value is a `PyVal`;
* a Python function that can raise returns `Except String _`, the error
  string naming the exception class;
* the optional Hugging Face backend of ai_service.py is an oracle: the
  outcome of model initialization and of a per-request backend call are
  explicit parameters, and the service object's mutable flags are an
  explicit `ServiceState` threaded through `analyze_nlu`.
-/

set_option maxRecDepth 65536

/-- Python strings, modelled as lists of characters. -/
abbrev Str := List Char

/-- Python str.lower(), ASCII case folding. -/
def pyLower (s : Str) : Str := s.map Char.toLower

/-- Python substring membership: `needle in hay`. -/
def pyIn (needle hay : Str) : Bool := decide (needle <:+: hay)

/-- Python `any(w in hay for w in ws)`. -/
def anyIn (ws : List Str) (hay : Str) : Bool := ws.any (fun w => pyIn w hay)

/-- Python str.strip(): drop leading and trailing whitespace. -/
def pyStrip (s : Str) : Str :=
  ((s.dropWhile Char.isWhitespace).reverse.dropWhile Char.isWhitespace).reverse

/-- Python `s.endswith((".", "!", "?"))`, the terminal-punctuation test
used by src/ai_service.py. -/
def endsWithPunct (s : Str) : Bool :=
  List.isSuffixOf ['.'] s || List.isSuffixOf ['!'] s || List.isSuffixOf ['?'] s

/-- Python `s.startswith(tuple_of_prefixes)`. -/
def startsWithAny (ps : List Str) (s : Str) : Bool :=
  ps.any (fun p => List.isPrefixOf p s)

/-- Python `s.split(". ")`: split on the two-character separator; adjacent
separators yield empty pieces, and the result is never the empty list. -/
def splitDotSpace : Str → List Str
  | [] => [[]]
  | '.' :: ' ' :: rest => [] :: splitDotSpace rest
  | c :: rest =>
    match splitDotSpace rest with
    | [] => [[c]]
    | t :: ts => (c :: t) :: ts

/-- Python `". ".join(pieces)`. -/
def joinDotSpace (pieces : List Str) : Str :=
  (pieces.intersperse ['.', ' ']).flatten

/-- The digits of a numeric literal read as a natural number. -/
def digitsToNat (l : List Char) : Nat :=
  l.foldl (fun n c => 10 * n + (c.toNat - 48)) 0

/-- Python builtin float() applied to a string: optional surrounding
whitespace, an optional sign, then digits with an optional fractional part
(at least one digit overall). Exponents and the special forms inf/nan,
which no input of the claims uses, are not modelled and fail the parse. -/
def pyParseFloat (s : Str) : Option ℚ :=
  let t := pyStrip s
  let signed : ℚ × Str :=
    match t with
    | '-' :: r => (-1, r)
    | '+' :: r => (1, r)
    | _ => (1, t)
  let body := signed.2
  let intPart := body.takeWhile Char.isDigit
  let rest := body.dropWhile Char.isDigit
  match rest with
  | [] =>
    if intPart.isEmpty then none
    else some (signed.1 * digitsToNat intPart)
  | '.' :: frac =>
    if frac.all Char.isDigit && !(intPart.isEmpty && frac.isEmpty) then
      some (signed.1 * ((digitsToNat intPart : ℚ) + digitsToNat frac / 10 ^ frac.length))
    else none
  | _ => none

/-- A loosely-typed Python value, as validate_financial_data can receive one:
a number (int or float), a string, None, or any other object (a list, a
dict, ...), carrying only its truthiness. -/
inductive PyVal where
  | num (q : ℚ)
  | text (s : Str)
  | pynone
  | other (truthy : Bool)
deriving DecidableEq

/-- Python truthiness of a `PyVal`. -/
def pyTruthy : PyVal → Bool
  | .num q => !(q == 0)
  | .text s => !s.isEmpty
  | .pynone => false
  | .other t => t

/-- Python builtin float() on a loosely-typed value: numbers convert, strings
are parsed (ValueError on failure), None and other objects raise TypeError. -/
def pyFloat : PyVal → Except String ℚ
  | .num q => .ok q
  | .text s =>
    match pyParseFloat s with
    | some q => .ok q
    | none => .error "ValueError"
  | .pynone => .error "TypeError"
  | .other _ => .error "TypeError"

/-- src/utils.py lines 138-140: calculate_percentage, a percentage with a
division-by-zero guard. -/
def calculate_percentage (part whole : ℚ) : ℚ :=
  if whole > 0 then part / whole * 100 else 0

/-- The raw record validate_financial_data receives: each field is the value
`data.get(key, default)` finds, `none` when the key is absent. The expenses
field is the mapping's items in insertion order. -/
structure RawData where
  income : Option PyVal
  expenses : List (Str × PyVal)
  savings_goal : Option PyVal
  persona : Option PyVal

/-- The cleaned record validate_financial_data returns. -/
structure CleanData where
  income : ℚ
  expenses : List (Str × ℚ)
  savings_goal : ℚ
  persona : Str
deriving DecidableEq

/-- src/utils.py lines 155-156 and 170-171: the expression
`float(v) if v and float(v) >= 0 else 0` applied to income and to
savings_goal. A falsy value gives 0 without calling float(); a truthy value
is converted by float(), which can raise; a negative result gives 0. -/
def cleanAmount (v : PyVal) : Except String ℚ :=
  if pyTruthy v then
    match pyFloat v with
    | .ok q => .ok (if 0 ≤ q then q else 0)
    | .error e => .error e
  else .ok 0

/-- src/utils.py lines 142-177: validate_financial_data. Income and
savings_goal go through `cleanAmount` (unguarded float()); each expense entry
is converted inside try/except, dropped on ValueError/TypeError or a negative
value; a persona other than the three known strings becomes "general". -/
def validate_financial_data (data : RawData) : Except String CleanData := do
  let income ← cleanAmount (data.income.getD (PyVal.num 0))
  let expenses := data.expenses.filterMap fun e =>
    match pyFloat e.2 with
    | .ok q => if 0 ≤ q then some (e.1, q) else none
    | .error _ => none
  let savings ← cleanAmount (data.savings_goal.getD (PyVal.num 0))
  let persona :=
    match data.persona.getD (PyVal.text "general".data) with
    | .text s =>
      if s = "student".data ∨ s = "professional".data ∨ s = "general".data then s
      else "general".data
    | _ => "general".data
  return { income := income, expenses := expenses, savings_goal := savings,
           persona := persona }

/-- src/main.py line 174: Python `sorted(expenses.items(), key=amount,
reverse=True)` is a stable descending sort. Stable insertion step: a new
element goes before the first element of strictly smaller amount, hence
after every earlier element of equal amount. -/
def insort (x : Str × ℚ) : List (Str × ℚ) → List (Str × ℚ)
  | [] => [x]
  | y :: ys => if x.2 ≥ y.2 then x :: y :: ys else y :: insort x ys

/-- src/main.py line 174: the stable descending sort of the expense items,
folding `insort` from the right so earlier entries are inserted last and
land before later entries of equal amount. -/
def sortDescByAmount (l : List (Str × ℚ)) : List (Str × ℚ) :=
  l.foldr insort []

/-- Python `sum(expenses.values())`. -/
def total_expenses_of (expenses : List (Str × ℚ)) : ℚ := (expenses.map Prod.snd).sum

/-- src/main.py lines 168-188: the top_spending_categories entries of the
budget-summary financial_metrics: the validated expenses sorted by amount
descending, the first three, each as (category, amount, percentage of
total_expenses). -/
def top_spending_categories (expenses : List (Str × ℚ)) : List (Str × ℚ × ℚ) :=
  ((sortDescByAmount expenses).take 3).map
    (fun e => (e.1, e.2, calculate_percentage e.2 (total_expenses_of expenses)))

/-- src/main.py line 249: the essential category word list. -/
def essential_categories : List Str :=
  ["rent".data, "mortgage".data, "utilities".data, "groceries".data,
   "insurance".data]

/-- src/main.py line 250: the discretionary category word list. -/
def discretionary_categories : List Str :=
  ["entertainment".data, "dining".data, "shopping".data, "travel".data]

/-- src/main.py line 254: `any(essential in category.lower() for essential in
essential_categories)`. -/
def isEssential (category : Str) : Bool :=
  essential_categories.any (fun w => pyIn w (pyLower category))

/-- src/main.py line 258: the discretionary counterpart. -/
def isDiscretionary (category : Str) : Bool :=
  discretionary_categories.any (fun w => pyIn w (pyLower category))

/-- src/main.py lines 252-255: essential_expenses, the raw amounts of every
entry whose lower-cased category contains an essential word. -/
def essential_sum (expenses : List (Str × ℚ)) : ℚ :=
  ((expenses.filter fun e => isEssential e.1).map Prod.snd).sum

/-- src/main.py lines 256-259: discretionary_expenses. -/
def discretionary_sum (expenses : List (Str × ℚ)) : ℚ :=
  ((expenses.filter fun e => isDiscretionary e.1).map Prod.snd).sum

/-- src/main.py lines 261-268: the spending_analysis dictionary of the
spending-insights endpoint. -/
structure SpendingAnalysis where
  total_expenses : ℚ
  essential_expenses : ℚ
  discretionary_expenses : ℚ
  spending_by_category : List (Str × ℚ × ℚ)
  essential_percentage : ℚ
  discretionary_percentage : ℚ
deriving DecidableEq

/-- src/main.py lines 239-268: the spending analysis computed directly from
the request's expenses (which are not passed through
validate_financial_data). -/
def spending_analysis (expenses : List (Str × ℚ)) : SpendingAnalysis :=
  let total := total_expenses_of expenses
  { total_expenses := total
    essential_expenses := essential_sum expenses
    discretionary_expenses := discretionary_sum expenses
    spending_by_category :=
      expenses.map (fun e => (e.1, e.2, calculate_percentage e.2 total))
    essential_percentage := calculate_percentage (essential_sum expenses) total
    discretionary_percentage :=
      calculate_percentage (discretionary_sum expenses) total }

/-- src/main.py lines 270-280: the action_items list of the spending-insights
endpoint, appended in source order. -/
def spending_insights_action_items (income : ℚ) (expenses : List (Str × ℚ))
    (goals : List Str) : List Str :=
  let essential := essential_sum expenses
  let discretionary := discretionary_sum expenses
  let total := total_expenses_of expenses
  (if discretionary > essential * (5 / 10) then
    ["Reduce discretionary spending".data] else [])
  ++ (if essential > income * (7 / 10) then
    ["Look for ways to reduce essential expenses".data] else [])
  ++ (if total > income * (9 / 10) then
    ["Create a strict budget to avoid overspending".data] else [])
  ++ (if !goals.isEmpty then ["Prioritize your financial goals".data] else [])
  ++ ["Track spending patterns for the next month".data]

/-- src/main.py lines 149-154: the budget-summary endpoint wraps its typed
request fields (floats and strings, as pydantic delivers them) into a raw
record and runs validate_financial_data on it. -/
def budget_summary_validated (income : ℚ) (expenses : List (Str × ℚ))
    (savings_goal : ℚ) (persona : Str) : Except String CleanData :=
  validate_financial_data
    { income := some (PyVal.num income)
      expenses := expenses.map (fun e => (e.1, PyVal.num e.2))
      savings_goal := some (PyVal.num savings_goal)
      persona := some (PyVal.text persona) }

/-- src/main.py line 168: total_expenses of the budget-summary metrics, a sum
over the validated expenses only. -/
def budget_summary_total_expenses (income : ℚ) (expenses : List (Str × ℚ))
    (savings_goal : ℚ) (persona : Str) : Except String ℚ :=
  (budget_summary_validated income expenses savings_goal persona).map
    (fun v => total_expenses_of v.expenses)

/-- The demonstration input with a negative expense amount. -/
def raw_negative_expenses : List (Str × ℚ) :=
  [("Dining".data, -100), ("Rent".data, 1000)]

/-- src/ai_service.py lines 37-47: the mutable flags of an AIService object
that the control flow of analyze_nlu reads and writes. A pipeline field is
true when the corresponding model object is loaded (not None). -/
structure ServiceState where
  hf_available : Bool
  models_loaded : Bool
  models_loading : Bool
  sentiment_analyzer : Bool
  ner_pipeline : Bool
  text_generator : Bool
deriving DecidableEq

/-- The outcome of one attempted model initialization, an oracle for the
external Hugging Face backend: success, or an exception while loading the
sentiment pipeline, the NER pipeline, or the text-generation model. -/
inductive InitOutcome where
  | success
  | failSentiment
  | failNer
  | failGenerator
deriving DecidableEq

/-- Which path produced the answer of one analyze_nlu request. -/
inductive NLUPath where
  | backend
  | fallback
deriving DecidableEq

/-- src/ai_service.py lines 61-100: _initialize_models. The models load in
order sentiment, NER, generator; an exception anywhere is caught inside the
method itself, which then sets hf_available = False and returns normally
(lines 98-100), leaving the models loaded so far in place. -/
def init_models (o : InitOutcome) (s : ServiceState) : ServiceState :=
  match o with
  | .success =>
    { s with sentiment_analyzer := true, ner_pipeline := true,
             text_generator := true }
  | .failSentiment => { s with hf_available := false }
  | .failNer => { s with sentiment_analyzer := true, hf_available := false }
  | .failGenerator =>
    { s with sentiment_analyzer := true, ner_pipeline := true,
             hf_available := false }

/-- src/ai_service.py lines 102-183: the control flow of analyze_nlu. On the
first request (flags clear) it runs _initialize_models; because that method
catches its own exceptions, the except branch of lines 118-120 never fires
and models_loaded is set True even when initialization failed — the failure
is recorded solely by hf_available = False. A request then falls back when
the backend is unavailable or a pipeline is missing, and a failing backend
call (`call_ok = false`, the except branch of lines 181-183) answers this one
request by the fallback without touching any flag. -/
def analyze_nlu (o : InitOutcome) (call_ok : Bool) (s : ServiceState) :
    NLUPath × ServiceState :=
  let s' :=
    if s.hf_available && !s.models_loaded && !s.models_loading then
      let s1 := init_models o { s with models_loading := true }
      { s1 with models_loaded := true, models_loading := false }
    else s
  if !s'.hf_available || !s'.sentiment_analyzer || !s'.ner_pipeline then
    (NLUPath.fallback, s')
  else if call_ok then (NLUPath.backend, s')
  else (NLUPath.fallback, s')

/-- A sequence of analyze_nlu requests, each with its own oracle outcomes,
threaded through the service state. -/
def run_nlu (reqs : List (InitOutcome × Bool)) (s : ServiceState) :
    List NLUPath × ServiceState :=
  match reqs with
  | [] => ([], s)
  | r :: rest =>
    let one := analyze_nlu r.1 r.2 s
    let more := run_nlu rest one.2
    (one.1 :: more.1, more.2)

/-- src/ai_service.py lines 27-59: the state of a freshly constructed
AIService whose Hugging Face login succeeded: backend available, nothing
loaded yet. -/
def freshService : ServiceState :=
  { hf_available := true, models_loaded := false, models_loading := false,
    sentiment_analyzer := false, ner_pipeline := false,
    text_generator := false }

/-- The state after a fully successful lazy initialization. -/
def readyService : ServiceState :=
  { hf_available := true, models_loaded := true, models_loading := false,
    sentiment_analyzer := true, ner_pipeline := true, text_generator := true }

/-- src/ai_service.py lines 199-203 (also 154-158): the 17-word financial
vocabulary list. -/
def financial_keywords : List Str :=
  ["money".data, "budget".data, "savings".data, "expenses".data,
   "income".data, "debt".data, "investment".data, "tax".data,
   "retirement".data, "emergency fund".data, "credit".data, "loan".data,
   "mortgage".data, "insurance".data, "spending".data, "cost".data,
   "price".data]

/-- src/ai_service.py line 210: the fixed positive word list. -/
def positive_words : List Str :=
  ["good".data, "great".data, "excellent".data, "improve".data,
   "better".data, "saving".data, "profit".data]

/-- src/ai_service.py line 211: the fixed negative word list. -/
def negative_words : List Str :=
  ["bad".data, "worse".data, "debt".data, "loss".data, "expensive".data,
   "struggle".data, "problem".data]

/-- Python `sum(1 for word in ws if word in t)`: how many words of the fixed
list occur (as substrings) in the text. -/
def countPresent (ws : List Str) (t : Str) : Nat :=
  (ws.filter (fun w => pyIn w t)).length

/-- The NLU analysis record: sentiment (label, score), keywords
(text, relevance), entities (text, type, score), categories (label, score). -/
structure NLUResult where
  sentiment : Str × ℚ
  keywords : List (Str × ℚ)
  entities : List (Str × Str × ℚ)
  categories : List (Str × ℚ)
deriving DecidableEq

/-- src/ai_service.py lines 185-228: _fallback_nlu_analysis. Keywords are the
financial vocabulary words present in the lower-cased text at relevance 0.8,
capped at 5; sentiment compares the counts of present positive and negative
words; entities and categories are always empty. -/
def fallback_nlu_analysis (text : Str) : NLUResult :=
  let tl := pyLower text
  let keywords :=
    (financial_keywords.filter (fun k => pyIn k tl)).map
      (fun k => (k, (8 : ℚ) / 10))
  let pos := countPresent positive_words tl
  let neg := countPresent negative_words tl
  let sentiment :=
    if pos > neg then ("positive".data, (7 : ℚ) / 10)
    else if neg > pos then ("negative".data, (6 : ℚ) / 10)
    else ("neutral".data, (5 : ℚ) / 10)
  { sentiment := sentiment, keywords := keywords.take 5, entities := [],
    categories := [] }
/-- src/ai_service.py lines 644-667: a canned advice template, verbatim. -/
def budget_summary_template : Str :=
"**Budget Summary Analysis**

Based on your financial data, here's my assessment:

**Overall Financial Health**: Your budget shows a [positive/neutral/concerning] financial situation.

**Key Insights**:
- Your total expenses represent [X]% of your income
- You have [positive/negative] disposable income each month
- Your savings goal is [achievable/challenging] given current spending

**Top Spending Categories**:
1. [Category 1]: [X]% of total expenses
2. [Category 2]: [X]% of total expenses

**Recommendations**:
1. Consider reducing spending in [specific category]
2. Set up automatic transfers to savings
3. Review discretionary expenses monthly
4. Build an emergency fund if you haven't already

**Risk Assessment**: [Any concerning patterns or red flags]

Remember to regularly review and adjust your budget as your circumstances change.".data

/-- src/ai_service.py lines 670-702: a canned advice template, verbatim. -/
def grocery_savings_template : Str :=
"**Smart Grocery Savings Strategies**

Here are proven ways to reduce your grocery expenses:

**Planning & Preparation**:
1. **Meal Planning**: Plan your meals for the week before shopping
2. **Shopping List**: Make a detailed list and stick to it
3. **Budget Setting**: Set a weekly/monthly grocery budget
4. **Inventory Check**: Check what you already have at home

**Shopping Strategies**:
- **Store Comparison**: Compare prices across different stores
- **Generic Brands**: Buy store brands instead of name brands (save 20-30%)
- **Bulk Buying**: Purchase non-perishables in bulk when on sale
- **Seasonal Shopping**: Buy fruits and vegetables in season
- **Cash/Card**: Use cash to avoid overspending

**Money-Saving Tips**:
- **Coupons & Apps**: Use store apps, digital coupons, and cashback apps
- **Sales Timing**: Shop during weekly sales and clearance events
- **Unit Prices**: Compare cost per unit, not just package price
- **Avoid Shopping Hungry**: Eat before grocery shopping
- **Loyalty Programs**: Join store loyalty programs for discounts

**Smart Food Choices**:
- **Cook at Home**: Reduce dining out and takeaway orders
- **Batch Cooking**: Prepare large portions and freeze extras
- **Protein Alternatives**: Include affordable proteins like beans, eggs, chicken
- **Frozen/Canned**: Buy frozen vegetables and canned goods when fresh is expensive

**Expected Savings**: With these strategies, you can reduce grocery bills by 15-30%.

Remember: Small changes in grocery habits can lead to significant savings over time!".data

/-- src/ai_service.py lines 705-737: a canned advice template, verbatim. -/
def house_purchase_template : Str :=
"**Saving for a House Purchase**

Buying a house worth 5 crore (₹50 million) is a significant investment. Here's a strategic approach:

**Down Payment Planning**:
- Traditional down payment: 10-20% = ₹5-10 million
- Consider starting with a smaller target if this is your first home
- Factor in additional costs: registration, stamp duty, legal fees (~2-3% extra)

**Savings Strategy for Large Home Purchase**:
1. **Set a realistic timeline**: For ₹5-10 million down payment, plan 5-10 years
2. **Monthly savings target**: ₹50,000-₹1,00,000 per month
3. **High-yield investments**: Consider equity mutual funds, ELSS, PPF
4. **Systematic Investment Plans (SIPs)**: Automate your savings

**Financial Preparation**:
- **Income requirement**: Your monthly income should be 3-4x the EMI
- **Credit score**: Maintain 750+ for better loan terms
- **Debt-to-income ratio**: Keep below 40% including the new home loan
- **Emergency fund**: Maintain 6 months of expenses separately

**Alternative Approaches**:
- Consider starting with a smaller home and upgrading later
- Look into pre-approved loans to understand your borrowing capacity
- Explore different locations for better value
- Consider ready-to-move vs under-construction properties

**Smart Tips**:
- Track real estate market trends in your target area
- Factor in maintenance costs (1-2% of property value annually)
- Consider tax benefits under Section 80C and 24(b)

Remember: A house is both a home and an investment. Plan carefully and don't overstretch your finances.".data

/-- src/ai_service.py lines 740-762: a canned advice template, verbatim. -/
def savings_investment_template : Str :=
"**Savings and Investment Guidance**

Here are some practical steps to improve your financial situation:

**Immediate Actions**:
1. **Emergency Fund**: Aim to save 3-6 months of expenses
2. **Automate Savings**: Set up automatic transfers from checking to savings
3. **Track Spending**: Use apps or spreadsheets to monitor expenses
4. **Reduce Expenses**: Look for areas to cut back on non-essential spending

**Investment Considerations**:
- Start with employer retirement plans (401k, 403b)
- Consider Roth IRA for tax-free growth
- Diversify investments across different asset classes
- Start early to benefit from compound interest

**Smart Saving Strategies**:
- Follow the 50/30/20 rule (needs/wants/savings)
- Use high-yield savings accounts
- Consider CD ladders for short-term goals
- Review and adjust your strategy regularly

Remember: Consistency is key. Even small amounts saved regularly can grow significantly over time.".data

/-- src/ai_service.py lines 765-791: a canned advice template, verbatim. -/
def debt_management_template : Str :=
"**Debt Management Strategy**

Here's a systematic approach to managing your debt:

**Debt Assessment**:
1. List all debts with balances, interest rates, and minimum payments
2. Calculate your total debt-to-income ratio
3. Identify which debts have the highest interest rates

**Debt Repayment Strategies**:
- **Avalanche Method**: Pay off highest interest debt first
- **Snowball Method**: Pay off smallest balances first for motivation
- **Debt Consolidation**: Consider combining multiple debts into one loan

**Immediate Steps**:
1. Stop taking on new debt
2. Pay more than minimum payments when possible
3. Negotiate lower interest rates with creditors
4. Consider balance transfer cards for high-interest debt

**Long-term Prevention**:
- Build emergency fund to avoid future debt
- Live below your means
- Use credit cards responsibly
- Save for major purchases instead of financing

Remember: Getting out of debt takes time and discipline, but it's achievable with a solid plan.".data

/-- src/ai_service.py lines 794-822: a canned advice template, verbatim. -/
def default_advice_template : Str :=
"**Personal Finance Advice**

Thank you for your question! Here are some general financial principles to consider:

**Financial Foundation**:
1. **Budget**: Track income and expenses to understand your cash flow
2. **Emergency Fund**: Save 3-6 months of expenses for unexpected events
3. **Debt Management**: Prioritize high-interest debt repayment
4. **Insurance**: Protect yourself and your family with appropriate coverage

**Smart Money Habits**:
- Pay yourself first (automate savings)
- Live below your means
- Avoid lifestyle inflation
- Regularly review and adjust your financial plan

**Investment Basics**:
- Start early to benefit from compound interest
- Diversify your investments
- Consider your risk tolerance and time horizon
- Take advantage of employer retirement plans

**Continuous Learning**:
- Stay informed about personal finance topics
- Seek professional advice when needed
- Learn from your financial mistakes
- Set clear, achievable financial goals

Remember: Financial success is a journey, not a destination. Small, consistent actions today will lead to significant results over time.".data

/-- src/ai_service.py lines 845-866: a canned advice template, verbatim. -/
def student_gym_template : Str :=
"**Student Financial Advice: Balancing Gym Membership and Student Loans**

As a student with student loans, here's my advice regarding gym expenses:

**Priority Assessment**:
1. **Student loans first**: These typically have higher interest rates and longer-term impact
2. **Health is important**: But look for cost-effective alternatives

**Smart Fitness Strategies for Students**:
- **University gym**: Use your student recreation center (often included in fees)
- **Budget gyms**: Planet Fitness, LA Fitness student discounts (~$10-15/month)
- **Free alternatives**: YouTube workouts, running, bodyweight exercises
- **Seasonal approach**: Outdoor activities in good weather, gym in winter

**Financial Balance**:
- If gym costs >$30/month, consider alternatives
- Allocate extra income to loan payments first
- Build an emergency fund of $500-1000
- Track all expenses to see where your money goes

**Long-term perspective**: Paying off loans early saves more money than most gym memberships cost. Consider free fitness options during your highest debt period.
".data

/-- src/ai_service.py lines 868-895: a canned advice template, verbatim. -/
def student_loan_template : Str :=
"**Student Loan Management Strategy**

Here's how to handle your student loans effectively:

**Understanding Your Loans**:
1. List all loans with balances, interest rates, servicers
2. Know the difference between federal and private loans
3. Understand your grace period and repayment options

**Repayment Strategies**:
- **Standard repayment**: Highest monthly payment, least interest overall
- **Income-driven plans**: Lower payments based on income (federal loans)
- **Avalanche method**: Pay minimums on all, extra on highest interest rate
- **Snowball method**: Pay smallest balance first for motivation

**Student-Specific Tips**:
- Keep federal loans separate from private (better protections)
- Consider auto-pay discounts (usually 0.25% rate reduction)
- Don't ignore loans - contact servicer if having trouble
- Explore forgiveness programs for public service careers

**While in School**:
- Pay interest on unsubsidized loans if possible
- Avoid borrowing more than necessary
- Look for scholarships and grants continuously

Remember: Student loans are an investment in your future earning potential.
".data

/-- src/ai_service.py lines 899-929: a canned advice template, verbatim. -/
def student_saving_template : Str :=
"**Student Saving Strategies**

Saving money as a student requires creativity and discipline:

**Smart Saving Tactics**:
1. **The $1 rule**: Save every $1 bill you receive
2. **Round-up savings**: Round purchases up, save the difference
3. **Meal prep**: Cook in bulk, avoid dining out frequently
4. **Textbook savings**: Buy used, rent, or use library reserves
5. **Student discounts**: Always ask - many businesses offer them

**Income Opportunities**:
- Work-study jobs on campus
- Tutoring (often pays $15-25/hour)
- Freelance skills (writing, design, coding)
- Paid internships and co-ops
- Sell items you no longer need

**Emergency Fund for Students**:
- Start with $300-500 goal
- Keep it in a separate savings account
- Use only for true emergencies (car repair, medical)

**Long-term Perspective**:
- Build good financial habits now
- Learn to live below your means
- Understand wants vs needs
- Start credit building responsibly

Even saving $25/month as a student builds valuable habits and provides a financial cushion.
".data

/-- src/ai_service.py lines 933-964: a canned advice template, verbatim. -/
def student_budget_template : Str :=
"**Student Budgeting Guide**

Creating a budget as a student with irregular income:

**Student Budget Categories**:
- **Fixed costs**: Tuition, rent, insurance, loan payments
- **Variable necessities**: Food, gas, school supplies
- **Discretionary**: Entertainment, dining out, subscriptions

**Budgeting on Irregular Income**:
1. Track income for 3 months to find your average
2. Budget based on your lowest month
3. Save excess from higher-income months
4. Use the envelope method for cash categories

**Student-Specific Tips**:
- **Textbooks**: Budget $400-600/semester, then find savings
- **Food**: Meal plans vs. cooking - calculate the real cost
- **Transportation**: Consider walking/biking vs. car costs
- **Free entertainment**: Campus events, free museum days

**Track These Categories**:
- Housing (aim for <30% of income)
- Food (15-20%)
- Transportation (10-15%)
- School supplies (5-10%)
- Savings (at least 5% even if small amounts)

**Tools**: Use apps like Mint, YNAB (free for students), or simple spreadsheets.

Remember: Your student years are for learning financial discipline that will serve you throughout life.
".data

/-- src/ai_service.py lines 972-1002: a canned advice template, verbatim. -/
def professional_investment_template : Str :=
"**Professional Investment Strategy**

As a working professional, here's how to approach investing:

**Investment Priority Order**:
1. **Emergency fund**: 3-6 months expenses in high-yield savings
2. **Employer 401(k) match**: Free money - contribute enough to get full match
3. **High-interest debt**: Pay off credit cards (>6% interest)
4. **Max retirement accounts**: 401(k), IRA ($6,500 limit for 2024)
5. **Taxable investment accounts**: For additional long-term growth

**Asset Allocation by Age**:
- **20s-30s**: 80-90% stocks, 10-20% bonds
- **40s**: 70-80% stocks, 20-30% bonds
- **50s+**: 60-70% stocks, 30-40% bonds
- Rule of thumb: (120 - your age) = % in stocks

**Professional Investment Vehicles**:
- **Index funds**: Low fees, broad diversification (VTI, VXUS)
- **Target-date funds**: Automatic rebalancing
- **ETFs**: Tax-efficient, liquid
- **Real estate**: REITs or rental properties for diversification

**Advanced Strategies**:
- Tax-loss harvesting in taxable accounts
- Backdoor Roth IRA if high income
- Mega backdoor Roth if available
- Consider professional financial advisor for complex situations

Start early, invest consistently, and keep fees low for long-term wealth building.
".data

/-- src/ai_service.py lines 1006-1039: a canned advice template, verbatim. -/
def professional_retirement_template : Str :=
"**Professional Retirement Planning**

Maximize your retirement savings as a working professional:

**Retirement Account Limits (2024)**:
- **401(k)**: $23,000 ($30,500 if 50+)
- **IRA**: $7,000 ($8,000 if 50+)
- **Total possible**: $30,000+ annually

**Employer Benefits to Maximize**:
- Get full 401(k) match (typically 3-6% of salary)
- HSA if available ($4,300 individual, $8,550 family)
- Consider after-tax 401(k) contributions if mega backdoor available

**Professional Retirement Strategies**:
1. **Automate everything**: Set up automatic contributions
2. **Increase with raises**: Boost contribution % with each promotion
3. **Tax diversification**: Mix of traditional and Roth accounts
4. **Rebalance annually**: Maintain target asset allocation

**Income-Specific Considerations**:
- **High earners**: May be limited from Roth IRA (backdoor option)
- **Variable income**: Contribute heavily in high-earning years
- **Stock options**: Understand vesting and tax implications

**Retirement Planning Milestones**:
- Age 30: 1x annual salary saved
- Age 40: 3x annual salary
- Age 50: 6x annual salary
- Age 60: 8x annual salary
- Retirement: 10-12x annual salary

Consider working with a fee-only financial advisor for comprehensive planning.
".data

/-- src/ai_service.py lines 1043-1077: a canned advice template, verbatim. -/
def professional_tax_template : Str :=
"**Professional Tax Optimization**

Strategies to minimize your tax burden legally:

**Pre-Tax Savings (Reduces Current Taxes)**:
- 401(k) contributions
- Traditional IRA (if eligible)
- HSA contributions (triple tax advantage)
- Flexible Spending Account (FSA)

**Tax Credits vs. Deductions**:
- **Credits**: Dollar-for-dollar tax reduction (Child Tax Credit, Education Credits)
- **Deductions**: Reduce taxable income (mortgage interest, charitable donations)

**Professional Tax Strategies**:
1. **Maximize retirement contributions**: Immediate tax savings
2. **Tax-loss harvesting**: Offset gains with losses in taxable accounts
3. **Charitable giving**: Bunching donations, donor-advised funds
4. **Professional development**: Many education expenses are deductible

**Advanced Strategies**:
- **Backdoor Roth**: If income too high for regular Roth
- **Mega backdoor Roth**: If employer plan allows
- **Tax-efficient fund placement**: Bonds in tax-advantaged accounts
- **Municipal bonds**: For high earners in high-tax states

**Business Owners Additional Options**:
- SEP-IRA or Solo 401(k)
- Business expense deductions
- Qualified Business Income (QBI) deduction

**Important**: Tax laws change frequently. Consider consulting a tax professional for complex situations or significant income changes.

Proactive tax planning can save thousands annually.
".data

/-- src/ai_service.py lines 1097-1135: a canned advice template, verbatim. -/
def emergency_fund_template : Str :=
"**Emergency Fund Essentials**

Building your financial safety net:

**Emergency Fund Basics**:
- **Purpose**: Cover unexpected expenses without debt
- **Amount**: 3-6 months of essential expenses
- **Location**: High-yield savings account (accessible but separate)

**How Much Do You Need?**:
- **Single, stable job**: 3-4 months expenses
- **Married, dual income**: 3-4 months expenses
- **Single earner household**: 6 months expenses
- **Variable income**: 6+ months expenses
- **High-risk job**: 6+ months expenses

**Building Your Emergency Fund**:
1. **Start small**: Even $500 helps with minor emergencies
2. **Automate**: Set up automatic weekly/monthly transfers
3. **Use windfalls**: Tax refunds, bonuses, gifts
4. **Side income**: Temporarily direct extra earnings to fund

**What Qualifies as an Emergency?**:
✅ **True emergencies**: Job loss, medical bills, major car/home repairs
❌ **Not emergencies**: Vacations, shopping, known upcoming expenses

**Where to Keep It**:
- High-yield savings account (current rates 4-5%)
- Money market account
- Short-term CDs (if you have multiple months saved)
- NOT: Checking account, investment accounts, cash at home

**After It's Built**:
- Only use for true emergencies
- Replenish immediately after use
- Review annually and adjust for lifestyle changes

Your emergency fund provides peace of mind and financial stability.
".data

/-- src/ai_service.py lines 842-895: _get_student_loan_advice, with the
nested check for "gym" in the (lower-cased) prompt. -/
def get_student_loan_advice (p : Str) : Str :=
  if pyIn "gym".data p then student_gym_template else student_loan_template

/-- src/ai_service.py lines 897-929: _get_student_saving_advice. -/
def get_student_saving_advice (_p : Str) : Str := student_saving_template

/-- src/ai_service.py lines 931-964: _get_student_budget_advice. -/
def get_student_budget_advice (_p : Str) : Str := student_budget_template

/-- src/ai_service.py lines 966-968: _get_student_gym_advice delegates to
_get_student_loan_advice. -/
def get_student_gym_advice (p : Str) : Str := get_student_loan_advice p

/-- src/ai_service.py lines 970-1002: _get_professional_investment_advice. -/
def get_professional_investment_advice (_p : Str) : Str :=
  professional_investment_template

/-- src/ai_service.py lines 1004-1039: _get_professional_retirement_advice. -/
def get_professional_retirement_advice (_p : Str) : Str :=
  professional_retirement_template

/-- src/ai_service.py lines 1041-1077: _get_professional_tax_advice. -/
def get_professional_tax_advice (_p : Str) : Str := professional_tax_template

/-- src/ai_service.py lines 1095-1135: _get_emergency_fund_advice. -/
def get_emergency_fund_advice (_p : Str) : Str := emergency_fund_template

/-- src/ai_service.py lines 629-822: _fallback_response_generation, a
first-match-wins scan of the lower-cased prompt (the persona argument is
never read). -/
def fallback_response_generation (prompt _persona : Str) : Str :=
  let pl := pyLower prompt
  if pyIn "budget".data pl && pyIn "summary".data pl then
    budget_summary_template
  else if pyIn "grocer".data pl && pyIn "saving".data pl then
    grocery_savings_template
  else if pyIn "house".data pl &&
      (pyIn "saving".data pl || pyIn "buy".data pl) then
    house_purchase_template
  else if pyIn "saving".data pl || pyIn "investment".data pl then
    savings_investment_template
  else if pyIn "debt".data pl || pyIn "loan".data pl then
    debt_management_template
  else default_advice_template

/-- src/ai_service.py lines 1079-1081: _get_general_saving_advice delegates
to _fallback_response_generation with persona "general". -/
def get_general_saving_advice (p : Str) : Str :=
  fallback_response_generation p "general".data

/-- src/ai_service.py lines 1083-1085: _get_debt_management_advice. -/
def get_debt_management_advice (p : Str) : Str :=
  fallback_response_generation p "general".data

/-- src/ai_service.py lines 1087-1089: _get_investment_advice. -/
def get_investment_advice (p : Str) : Str :=
  fallback_response_generation p "general".data

/-- src/ai_service.py lines 1091-1093: _get_budget_advice. -/
def get_budget_advice (p : Str) : Str :=
  fallback_response_generation p "general".data

/-- src/ai_service.py lines 443-457: the general-topic section of
_enhanced_response_generation, reached when no persona-specific branch
returned. The first rule checks "budget" and "summary" together and passes
the original prompt on to _fallback_response_generation (line 444); the
keyword helpers receive the lower-cased prompt. -/
def general_topic_response (prompt persona : Str) : Str :=
  let pl := pyLower prompt
  if pyIn "budget".data pl && pyIn "summary".data pl then
    fallback_response_generation prompt persona
  else if anyIn ["save".data, "saving".data, "money".data] pl then
    get_general_saving_advice pl
  else if anyIn ["debt".data, "loan".data, "credit".data] pl then
    get_debt_management_advice pl
  else if anyIn ["investment".data, "invest".data] pl then
    get_investment_advice pl
  else if anyIn ["budget".data, "expense".data] pl then
    get_budget_advice pl
  else if anyIn ["emergency".data, "fund".data] pl then
    get_emergency_fund_advice pl
  else fallback_response_generation prompt persona

/-- src/ai_service.py lines 409-457: _enhanced_response_generation, the
rule-based response selector. The student branch fires when the lower-cased
prompt contains "student" OR the persona equals "student"; the professional
branch only on the persona; a branch whose inner keyword checks all fail
falls through to the general-topic section. -/
def enhanced_response_generation (prompt persona : Str) : Str :=
  let pl := pyLower prompt
  if pyIn "student".data pl || persona == "student".data then
    if anyIn ["loan".data, "debt".data, "payment".data] pl then
      get_student_loan_advice pl
    else if anyIn ["save".data, "saving".data, "money".data] pl then
      get_student_saving_advice pl
    else if anyIn ["budget".data, "expense".data] pl then
      get_student_budget_advice pl
    else if anyIn ["gym".data, "fitness".data, "membership".data] pl then
      get_student_gym_advice pl
    else general_topic_response prompt persona
  else if persona == "professional".data then
    if anyIn ["investment".data, "invest".data, "portfolio".data] pl then
      get_professional_investment_advice pl
    else if anyIn ["retirement".data, "401k".data, "pension".data] pl then
      get_professional_retirement_advice pl
    else if anyIn ["tax".data, "deduction".data] pl then
      get_professional_tax_advice pl
    else general_topic_response prompt persona
  else general_topic_response prompt persona

/-- src/ai_service.py lines 609-613 (also 364-368): drop the last piece of
the sentence split when there is more than one piece and it does not end in
terminal punctuation. -/
def drop_incomplete_step (sentences : List Str) : List Str :=
  if sentences.length > 1 && !endsWithPunct (sentences.getLastD []) then
    sentences.dropLast
  else sentences

/-- src/ai_service.py lines 617-621 of _format_model_response: the student
prefixes checked before prepending "As a student, ". -/
def student_response_intros : List Str :=
  ["As a student".data, "For students".data, "When you're a student".data]

/-- src/ai_service.py lines 619-621: the professional prefixes. -/
def professional_response_intros : List Str :=
  ["As a professional".data, "For professionals".data, "In your career".data]

/-- src/ai_service.py lines 615-621: the persona-prefix step of
_format_model_response; note it lower-cases the whole response when it
prepends a prefix. -/
def persona_intro_step (s persona : Str) : Str :=
  if persona == "student".data then
    if startsWithAny student_response_intros s then s
    else "As a student, ".data ++ pyLower s
  else if persona == "professional".data then
    if startsWithAny professional_response_intros s then s
    else "As a working professional, ".data ++ pyLower s
  else s

/-- src/ai_service.py lines 623-625: append a period when the response does
not already end in terminal punctuation. -/
def punct_step (s : Str) : Str :=
  if !endsWithPunct s then s ++ ['.'] else s

/-- src/ai_service.py lines 595-627: _format_model_response: strip, split on
". ", drop a trailing incomplete sentence, re-join, persona-prefix, and
guarantee terminal punctuation. -/
def format_model_response (response persona : Str) : Str :=
  punct_step
    (persona_intro_step
      (joinDotSpace (drop_incomplete_step (splitDotSpace (pyStrip response))))
      persona)

/-! ## Helper lemmas -/

theorem endsWithPunct_append_dot (s : Str) :
    endsWithPunct (s ++ ['.']) = true := by
  have h : List.isSuffixOf ['.'] (s ++ ['.']) = true := by
    simp [List.isSuffixOf, List.reverse_append, List.isPrefixOf]
  simp [endsWithPunct, h]

theorem punct_step_ends (s : Str) : endsWithPunct (punct_step s) = true := by
  unfold punct_step
  by_cases h : endsWithPunct s
  · simp [h]
  · simp [h, endsWithPunct_append_dot]

theorem startsWithAny_punct_step (ps : List Str) (s : Str)
    (h : startsWithAny ps s = true) :
    startsWithAny ps (punct_step s) = true := by
  unfold punct_step
  by_cases hp : endsWithPunct s
  · simp [hp, h]
  · simp only [hp, Bool.not_false, if_true]
    unfold startsWithAny at h ⊢
    simp only [List.any_eq_true] at h ⊢
    obtain ⟨p, hmem, hpre⟩ := h
    refine ⟨p, hmem, ?_⟩
    rw [List.isPrefixOf_iff_prefix] at hpre ⊢
    exact hpre.trans (List.prefix_append s ['.'])

theorem startsWithAny_of_mem_prefix (ps : List Str) (p s : Str)
    (hmem : p ∈ ps) (hpre : p <+: s) : startsWithAny ps s = true := by
  unfold startsWithAny
  rw [List.any_eq_true]
  exact ⟨p, hmem, (List.isPrefixOf_iff_prefix).mpr hpre⟩

theorem persona_intro_student (s : Str) :
    startsWithAny student_response_intros
      (persona_intro_step s "student".data) = true := by
  unfold persona_intro_step
  rw [if_pos (by decide : (("student".data : Str) == "student".data) = true)]
  by_cases h : startsWithAny student_response_intros s = true
  · rw [if_pos h]; exact h
  · rw [if_neg h]
    refine startsWithAny_of_mem_prefix _ "As a student".data _
      (by simp [student_response_intros]) ⟨", ".data ++ pyLower s, ?_⟩
    rw [← List.append_assoc]
    exact congrArg (fun l => l ++ pyLower s)
      (by decide : ("As a student".data ++ ", ".data : Str)
        = "As a student, ".data)

theorem persona_intro_professional (s : Str) :
    startsWithAny ("As a working professional".data :: professional_response_intros)
      (persona_intro_step s "professional".data) = true := by
  unfold persona_intro_step
  rw [if_neg (by decide :
      ¬ (("professional".data : Str) == "student".data) = true)]
  rw [if_pos (by decide :
      (("professional".data : Str) == "professional".data) = true)]
  by_cases h : startsWithAny professional_response_intros s = true
  · rw [if_pos h]
    unfold startsWithAny at h ⊢
    rw [List.any_eq_true] at h ⊢
    obtain ⟨p, hmem, hpre⟩ := h
    exact ⟨p, List.mem_cons_of_mem _ hmem, hpre⟩
  · rw [if_neg h]
    refine startsWithAny_of_mem_prefix _ "As a working professional".data _
      (List.mem_cons_self _ _) ⟨", ".data ++ pyLower s, ?_⟩
    rw [← List.append_assoc]
    exact congrArg (fun l => l ++ pyLower s)
      (by decide : ("As a working professional".data ++ ", ".data : Str)
        = "As a working professional, ".data)

theorem analyze_nlu_of_unavailable (o : InitOutcome) (c : Bool)
    (s : ServiceState) (h : s.hf_available = false) :
    analyze_nlu o c s = (NLUPath.fallback, s) := by
  simp [analyze_nlu, h]

theorem run_nlu_fallback_of_unavailable (reqs : List (InitOutcome × Bool)) :
    ∀ s : ServiceState, s.hf_available = false →
      ∀ p ∈ (run_nlu reqs s).1, p = NLUPath.fallback := by
  induction reqs with
  | nil => intro s h p hp; simp [run_nlu] at hp
  | cons r rest ih =>
    intro s h p hp
    simp only [run_nlu] at hp
    rw [analyze_nlu_of_unavailable r.1 r.2 s h] at hp
    simp only [List.mem_cons] at hp
    rcases hp with rfl | hp
    · rfl
    · exact ih s h p hp

/-! ## Claim theorems -/

/-- C1 (code_bug evidence): validate_financial_data does NOT return a cleaned
record for every loosely-typed input. On the record whose income is the
unparseable string "abc" the unguarded float(income) of
src/utils.py line 156 raises ValueError, so the exception escapes instead of
income degrading to 0 as the claim and spec section 4.1 state. -/
theorem validate_financial_data_error_on_unparseable_income :
    validate_financial_data
      { income := some (PyVal.text "abc".data), expenses := [],
        savings_goal := none, persona := none }
      = Except.error "ValueError" := rfl

/-- C2: calculate_percentage returns part/whole*100 when whole > 0 and 0
whenever whole ≤ 0; it is a total function (the guard makes the division-free
branch cover whole ≤ 0, so it never divides by zero and never raises). -/
theorem calculate_percentage_spec (part whole : ℚ) :
    (0 < whole → calculate_percentage part whole = part / whole * 100)
    ∧ (whole ≤ 0 → calculate_percentage part whole = 0) := by
  constructor
  · intro h; simp [calculate_percentage, h]
  · intro h; simp [calculate_percentage, not_lt.mpr h]

/-- Witness for C2 at part = 50, whole = 200 and at part = 3, whole = -2. -/
theorem calculate_percentage_spec_witness :
    calculate_percentage 50 200 = 50 / 200 * 100
    ∧ calculate_percentage 3 (-2) = 0 :=
  ⟨(calculate_percentage_spec 50 200).1 (by norm_num),
   (calculate_percentage_spec 3 (-2)).2 (by norm_num)⟩

/-- C3: after a successful initialization (all flags set), a failing backend
call answers only that request by the fallback and leaves the whole service
state — the backend-availability flag included — unchanged, so a later call
can still use the backend; a failure during backend initialization clears
hf_available permanently and every later request takes the fallback path. -/
theorem analyze_nlu_failure_semantics :
    (∀ (o : InitOutcome) (c : Bool) (s : ServiceState),
        s.hf_available = true → s.models_loaded = true →
        s.sentiment_analyzer = true → s.ner_pipeline = true →
        analyze_nlu o false s = (NLUPath.fallback, s)
        ∧ (analyze_nlu o c s).2 = s
        ∧ (analyze_nlu o true s).1 = NLUPath.backend)
    ∧ (∀ (o : InitOutcome) (c : Bool), o ≠ InitOutcome.success →
        (analyze_nlu o c freshService).1 = NLUPath.fallback
        ∧ (analyze_nlu o c freshService).2.hf_available = false
        ∧ ∀ (reqs : List (InitOutcome × Bool)),
            ∀ p ∈ (run_nlu reqs (analyze_nlu o c freshService).2).1,
              p = NLUPath.fallback) := by
  constructor
  · intro o c s h1 h2 h3 h4
    refine ⟨?_, ?_, ?_⟩
    · simp [analyze_nlu, h1, h2, h3, h4]
    · cases c <;> simp [analyze_nlu, h1, h2, h3, h4]
    · simp [analyze_nlu, h1, h2, h3, h4]
  · intro o c ho
    have hfa : (analyze_nlu o c freshService).2.hf_available = false := by
      cases o with
      | success => exact absurd rfl ho
      | failSentiment => simp [analyze_nlu, init_models, freshService]
      | failNer => simp [analyze_nlu, init_models, freshService]
      | failGenerator => simp [analyze_nlu, init_models, freshService]
    have hpath : (analyze_nlu o c freshService).1 = NLUPath.fallback := by
      cases o with
      | success => exact absurd rfl ho
      | failSentiment => simp [analyze_nlu, init_models, freshService]
      | failNer => simp [analyze_nlu, init_models, freshService]
      | failGenerator => simp [analyze_nlu, init_models, freshService]
    exact ⟨hpath, hfa,
      fun reqs => run_nlu_fallback_of_unavailable reqs _ hfa⟩

/-- Witness for C3: a request-time failure on a fully loaded service answers
by fallback, and a failed initialization on a fresh service answers by
fallback. -/
theorem analyze_nlu_failure_semantics_witness :
    analyze_nlu InitOutcome.success false readyService
      = (NLUPath.fallback, readyService)
    ∧ (analyze_nlu InitOutcome.failSentiment true freshService).1
      = NLUPath.fallback :=
  ⟨(analyze_nlu_failure_semantics.1 InitOutcome.success false readyService
      rfl rfl rfl rfl).1,
   (analyze_nlu_failure_semantics.2 InitOutcome.failSentiment true
      (by decide)).1⟩

/-- C4 counterexample: the claim fails as stated. The prompt
"student budget summary save" contains both "budget" and "summary" and the
persona is general, yet the selector returns the student saving template,
not the budget-summary template, because the student branch fires on the
substring "student" before the general budget+summary rule is reached. -/
theorem budget_summary_precedence_counterexample :
    enhanced_response_generation "student budget summary save".data
        "general".data
      ≠ budget_summary_template
    ∧ enhanced_response_generation "student budget summary save".data
        "general".data
      = student_saving_template := by
  constructor
  · decide
  · rfl

/-- C4 amended: for every prompt whose lower-cased text contains both
"budget" and "summary" but not "student", with persona general, the selector
returns the budget-summary template — even if the prompt also contains
"save", since the budget+summary rule is checked before the save/saving/money
rule of the general section. -/
theorem budget_summary_precedence_amended (p : Str)
    (hs : pyIn "student".data (pyLower p) = false)
    (hb : pyIn "budget".data (pyLower p) = true)
    (hm : pyIn "summary".data (pyLower p) = true) :
    enhanced_response_generation p "general".data = budget_summary_template := by
  have h1 : (("general".data : Str) == "student".data) = false := by decide
  have h2 : (("general".data : Str) == "professional".data) = false := by decide
  simp [enhanced_response_generation, general_topic_response,
    fallback_response_generation, hs, hb, hm, h1, h2]

/-- Witness for C4 amended: a budget+summary prompt that also contains
"save". -/
theorem budget_summary_precedence_witness :
    enhanced_response_generation
      "please give a budget summary and save tips".data "general".data
      = budget_summary_template :=
  budget_summary_precedence_amended
    "please give a budget summary and save tips".data
    (by decide) (by decide) (by decide)

/-- C8 counterexample: the claim fails as stated. The selector branch taken
for the prompt "student loan" with persona student returns the student-loan
template, whose final character is a newline (not '.', '!' or '?') and which
does not start with any student persona prefix. -/
theorem selector_output_format_counterexample :
    endsWithPunct
      (enhanced_response_generation "student loan".data "student".data)
      = false
    ∧ startsWithAny student_response_intros
        (enhanced_response_generation "student loan".data "student".data)
      = false := by
  constructor
  · decide
  · decide

/-- C8 amended: the guarantee holds of the model-generation formatting path:
_format_model_response always returns text ending in '.', '!' or '?', and
when the persona is student (resp. professional) the result starts with a
student intro ("As a student", "For students", "When you're a student"),
resp. with the prepended "As a working professional" or one of the checked
professional intros. Selector templates are returned verbatim and carry no
such guarantee. -/
theorem format_model_response_spec (r p : Str) :
    endsWithPunct (format_model_response r p) = true
    ∧ (p = "student".data →
        startsWithAny student_response_intros (format_model_response r p)
          = true)
    ∧ (p = "professional".data →
        startsWithAny
          ("As a working professional".data :: professional_response_intros)
          (format_model_response r p) = true) := by
  unfold format_model_response
  refine ⟨punct_step_ends _, ?_, ?_⟩
  · rintro rfl
    exact startsWithAny_punct_step _ _ (persona_intro_student _)
  · rintro rfl
    exact startsWithAny_punct_step _ _ (persona_intro_professional _)

/-- Witness for C8 amended at a concrete response and persona. -/
theorem format_model_response_spec_witness :
    endsWithPunct
      (format_model_response "track your budget".data "student".data) = true
    ∧ startsWithAny student_response_intros
        (format_model_response "track your budget".data "student".data)
      = true :=
  ⟨(format_model_response_spec "track your budget".data "student".data).1,
   (format_model_response_spec "track your budget".data "student".data).2.1
      rfl⟩

theorem mem_insort (a x : Str × ℚ) (t : List (Str × ℚ)) :
    a ∈ insort x t ↔ a = x ∨ a ∈ t := by
  induction t with
  | nil => simp [insort]
  | cons y ys ih =>
    by_cases h : x.2 ≥ y.2
    · simp [insort, h]
    · simp only [insort, h, if_false, List.mem_cons, ih]
      tauto

theorem pairwise_insort (x : Str × ℚ) (t : List (Str × ℚ))
    (h : t.Pairwise (fun a b => b.2 ≤ a.2)) :
    (insort x t).Pairwise (fun a b => b.2 ≤ a.2) := by
  induction t with
  | nil => simp [insort]
  | cons y ys ih =>
    rw [List.pairwise_cons] at h
    obtain ⟨hy, hys⟩ := h
    by_cases hxy : x.2 ≥ y.2
    · simp only [insort, hxy, if_true]
      refine List.pairwise_cons.mpr ⟨?_, List.pairwise_cons.mpr ⟨hy, hys⟩⟩
      intro b hb
      rcases List.mem_cons.mp hb with rfl | hb
      · exact hxy
      · exact le_trans (hy b hb) hxy
    · simp only [insort, hxy, if_false]
      refine List.pairwise_cons.mpr ⟨?_, ih hys⟩
      intro b hb
      rcases (mem_insort b x ys).mp hb with rfl | hb
      · exact le_of_not_le hxy
      · exact hy b hb

theorem pairwise_sortDesc (l : List (Str × ℚ)) :
    (sortDescByAmount l).Pairwise (fun a b => b.2 ≤ a.2) := by
  induction l with
  | nil => simp [sortDescByAmount]
  | cons x xs ih =>
    simp only [sortDescByAmount, List.foldr_cons] at ih ⊢
    exact pairwise_insort x _ ih

theorem filter_insort (q : ℚ) (x : Str × ℚ) (t : List (Str × ℚ)) :
    (insort x t).filter (fun p => decide (p.2 = q))
      = if x.2 = q then x :: t.filter (fun p => decide (p.2 = q))
        else t.filter (fun p => decide (p.2 = q)) := by
  induction t with
  | nil => by_cases hx : x.2 = q <;> simp [insort, hx]
  | cons y ys ih =>
    by_cases hxy : x.2 ≥ y.2
    · simp only [insort, hxy, if_true]
      by_cases hx : x.2 = q <;> simp [List.filter_cons, hx]
    · simp only [insort, hxy, if_false]
      by_cases hy : y.2 = q
      · by_cases hx : x.2 = q
        · exact absurd (ge_of_eq (hx.trans hy.symm)) hxy
        · simp [List.filter_cons, hy, hx, ih]
      · simp [List.filter_cons, hy, ih]

theorem filter_sortDesc (q : ℚ) (l : List (Str × ℚ)) :
    (sortDescByAmount l).filter (fun p => decide (p.2 = q))
      = l.filter (fun p => decide (p.2 = q)) := by
  induction l with
  | nil => simp [sortDescByAmount]
  | cons x xs ih =>
    simp only [sortDescByAmount, List.foldr_cons] at ih ⊢
    rw [filter_insort]
    by_cases hx : x.2 = q <;> simp [List.filter_cons, hx, ih]

/-- C5: the top-spending-categories list of the budget-summary metrics has at
most 3 entries, is sorted by amount descending, annotates each entry with its
amount as a percentage of total_expenses, and the underlying sort is stable:
for every amount value, the entries carrying it appear in the sorted list in
their original insertion order. -/
theorem top_spending_categories_spec (expenses : List (Str × ℚ)) :
    (top_spending_categories expenses).length ≤ 3
    ∧ (top_spending_categories expenses).Pairwise
        (fun a b => b.2.1 ≤ a.2.1)
    ∧ (∀ e ∈ top_spending_categories expenses,
        e.2.2 = calculate_percentage e.2.1 (total_expenses_of expenses))
    ∧ (∀ q : ℚ,
        (sortDescByAmount expenses).filter (fun p => decide (p.2 = q))
          = expenses.filter (fun p => decide (p.2 = q))) := by
  refine ⟨?_, ?_, ?_, fun q => filter_sortDesc q expenses⟩
  · rw [top_spending_categories, List.length_map]
    exact List.length_take_le 3 _
  · rw [top_spending_categories, List.pairwise_map]
    exact List.Pairwise.sublist (List.take_sublist 3 _)
      (pairwise_sortDesc expenses)
  · intro e he
    rw [top_spending_categories] at he
    obtain ⟨a, _, rfl⟩ := List.mem_map.mp he
    rfl

/-- Witness for C5: the stability conjunct applied to the record Rent 1200,
Food 800 at the amount 800. -/
theorem top_spending_categories_spec_witness :
    (sortDescByAmount [("Rent".data, (1200 : ℚ)), ("Food".data, 800)]).filter
        (fun p => decide (p.2 = 800))
      = [("Rent".data, (1200 : ℚ)), ("Food".data, 800)].filter
        (fun p => decide (p.2 = 800)) :=
  (top_spending_categories_spec
    [("Rent".data, 1200), ("Food".data, 800)]).2.2.2 800

/-- C6: fallback sentiment is a comparison of how many of the seven positive
words and how many of the seven negative words occur in the lower-cased text:
strictly more positive gives (positive, 0.7), strictly more negative gives
(negative, 0.6), and a tie — the zero/zero case included — gives
(neutral, 0.5). -/
theorem fallback_sentiment_trichotomy (t : Str) :
    (countPresent positive_words (pyLower t)
        > countPresent negative_words (pyLower t) →
      (fallback_nlu_analysis t).sentiment = ("positive".data, (7 : ℚ) / 10))
    ∧ (countPresent negative_words (pyLower t)
        > countPresent positive_words (pyLower t) →
      (fallback_nlu_analysis t).sentiment = ("negative".data, (6 : ℚ) / 10))
    ∧ (countPresent positive_words (pyLower t)
        = countPresent negative_words (pyLower t) →
      (fallback_nlu_analysis t).sentiment = ("neutral".data, (5 : ℚ) / 10)) := by
  refine ⟨fun h => ?_, fun h => ?_, fun h => ?_⟩
  · simp [fallback_nlu_analysis, h]
  · have h' : ¬ countPresent positive_words (pyLower t)
        > countPresent negative_words (pyLower t) := by omega
    simp [fallback_nlu_analysis, h, h']
  · simp [fallback_nlu_analysis, h]

/-- Witness for C6: "great savings plan" has two positive hits, no negative
hit, and is labelled positive at score 0.7. -/
theorem fallback_sentiment_trichotomy_witness :
    (fallback_nlu_analysis "great savings plan".data).sentiment
      = ("positive".data, (7 : ℚ) / 10) :=
  (fallback_sentiment_trichotomy "great savings plan".data).1 (by decide)

/-- C7: on income 5000, expenses Rent 1500 and Dining 2000, no goals, the
action_items list is exactly "Reduce discretionary spending" followed by
"Track spending patterns for the next month": discretionary 2000 exceeds
half of essential 1500, the essential and strict-budget thresholds are not
crossed, and the goals item is absent. -/
theorem spending_insights_example_action_items :
    spending_insights_action_items 5000
      [("Rent".data, 1500), ("Dining".data, 2000)] []
      = ["Reduce discretionary spending".data,
         "Track spending patterns for the next month".data] := by
  have e1 : isEssential "Rent".data = true := by decide
  have e2 : isEssential "Dining".data = false := by decide
  have d1 : isDiscretionary "Rent".data = false := by decide
  have d2 : isDiscretionary "Dining".data = true := by decide
  unfold spending_insights_action_items
  norm_num [essential_sum, discretionary_sum, total_expenses_of,
    List.filter_cons, e1, e2, d1, d2]

/-- C9: the spending-insights endpoint computes every part of its
spending_analysis directly from the raw request expenses — each entry,
negative amounts included, appears unchanged in spending_by_category, and
total and bucket sums range over all raw entries — whereas the
budget-summary endpoint first validates, so a record with a negative Dining
entry of -100 totals 900 for spending insights but 1000 (the entry dropped)
in the budget-summary metrics. -/
theorem spending_insights_uses_raw_amounts :
    (∀ expenses : List (Str × ℚ),
        (spending_analysis expenses).total_expenses
          = (expenses.map Prod.snd).sum
        ∧ (spending_analysis expenses).spending_by_category
            = expenses.map (fun e => (e.1, e.2,
                calculate_percentage e.2 ((expenses.map Prod.snd).sum)))
        ∧ (spending_analysis expenses).essential_expenses
            = ((expenses.filter fun e => isEssential e.1).map Prod.snd).sum
        ∧ (spending_analysis expenses).discretionary_expenses
            = ((expenses.filter fun e => isDiscretionary e.1).map Prod.snd).sum)
    ∧ (spending_analysis raw_negative_expenses).total_expenses = 900
    ∧ (spending_analysis raw_negative_expenses).spending_by_category.head?
        = some ("Dining".data, -100, calculate_percentage (-100) 900)
    ∧ budget_summary_total_expenses 5000 raw_negative_expenses 0 "general".data
        = Except.ok 1000 := by
  have ht : total_expenses_of raw_negative_expenses = 900 := by
    norm_num [total_expenses_of, raw_negative_expenses]
  refine ⟨fun expenses => ⟨rfl, rfl, rfl, rfl⟩, ht, ?_, ?_⟩
  · show (raw_negative_expenses.map (fun e => (e.1, e.2,
        calculate_percentage e.2 (total_expenses_of raw_negative_expenses)))).head?
      = some ("Dining".data, -100, calculate_percentage (-100) 900)
    rw [ht]
    rfl
  · show (budget_summary_validated 5000 raw_negative_expenses 0
        "general".data).map (fun v => total_expenses_of v.expenses)
      = Except.ok 1000
    have hv : budget_summary_validated 5000 raw_negative_expenses 0
        "general".data
        = Except.ok { income := 5000, expenses := [("Rent".data, 1000)],
                      savings_goal := 0, persona := "general".data } := by
      norm_num [budget_summary_validated, validate_financial_data,
        raw_negative_expenses, cleanAmount, pyTruthy, pyFloat,
        List.filterMap_cons, Bind.bind, Except.bind, Pure.pure, Except.pure]
    rw [hv]
    show Except.ok (total_expenses_of [("Rent".data, (1000 : ℚ))])
      = Except.ok 1000
    norm_num [total_expenses_of]

/-- C10: an expense category whose lower-cased name contains both an
essential word and a discretionary word is counted in full in both bucket
sums, so the buckets together can exceed total_expenses: for the single
entry "dining utilities" at 100, essential + discretionary = 200 > 100. -/
theorem dual_category_double_counted :
    (∀ (c : Str) (a : ℚ) (rest : List (Str × ℚ)),
        isEssential c = true → isDiscretionary c = true →
        essential_sum ((c, a) :: rest) = a + essential_sum rest
        ∧ discretionary_sum ((c, a) :: rest) = a + discretionary_sum rest)
    ∧ essential_sum [("dining utilities".data, 100)]
        + discretionary_sum [("dining utilities".data, 100)]
        > total_expenses_of [("dining utilities".data, 100)] := by
  constructor
  · intro c a rest h1 h2
    constructor
    · simp [essential_sum, List.filter_cons, h1]
    · simp [discretionary_sum, List.filter_cons, h2]
  · have h1 : isEssential "dining utilities".data = true := by decide
    have h2 : isDiscretionary "dining utilities".data = true := by decide
    norm_num [essential_sum, discretionary_sum, total_expenses_of,
      List.filter_cons, h1, h2]

/-- Witness for C10 at the category "dining utilities", which matches both
word lists. -/
theorem dual_category_double_counted_witness :
    essential_sum [("dining utilities".data, (40 : ℚ))]
      = 40 + essential_sum []
    ∧ discretionary_sum [("dining utilities".data, (40 : ℚ))]
      = 40 + discretionary_sum [] :=
  dual_category_double_counted.1 "dining utilities".data 40 []
    (by decide) (by decide)
